import Mathlib

/-!
A shallow embedding of the IPFS daemon bootstrap code in
`cmd/ipfs/daemon.go`: repository lock discipline, routing backend
selection, HTTP API and gateway service launch, and the error-channel
fan-in (`merge`) together with the supervising receive loop.

External collaborators (fsrepo, multiaddr parsing, `corehttp.Serve`,
option parsing on the request, ...) are modelled as environment-supplied
outcomes; the few behaviours whose implementations are outside the
source tree are modelled from the specification and say so in their
doc comments.
-/

/-- Error values (Go `error`): a message string.  A `none` in an
`Option Err` position stands for a nil error value. -/
abbrev Err := String

/-- Peer identities, kept abstract as strings. -/
abbrev PeerID := String

/-- Multiaddresses, kept abstract as strings. -/
abbrev Multiaddr := String

/-- An error channel (`chan error`) as observed over a whole run: the
sequence of values that are sent on it, and whether it is ever closed.
The channels made by `mountHTTPapi` / `mountHTTPgw` receive exactly one
value (the return of `corehttp.Serve`) and are never closed. -/
structure Sig where
  values : List (Option Err)
  closed : Bool
deriving DecidableEq, Repr

/-- The value `wg.Add` is called with in `merge`: the length of the
whole argument list `cs`, nil channels included (daemon.go line 412). -/
def mergeWgAdd (cs : List (Option Sig)) : Nat := cs.length

/-- The forwarder set of `merge`: one `output` goroutine is started per
non-nil input channel (daemon.go lines 413-417); nil inputs are
skipped. -/
def forwarders (cs : List (Option Sig)) : List Sig := cs.filterMap id

/-- How many times `wg.Done` is eventually called: each forwarder calls
it only after its source channel closes (daemon.go lines 406-411), so
the count is the number of non-nil inputs that ever close. -/
def mergeDone (cs : List (Option Sig)) : Nat :=
  ((forwarders cs).filter (fun s => s.closed)).length

/-- Whether the output channel of `merge` ever closes: the closing
goroutine runs `wg.Wait(); close(out)` (daemon.go lines 421-424), so
`out` closes exactly when the number of `wg.Done` calls reaches the
`wg.Add` count. -/
def mergeCloses (cs : List (Option Sig)) : Bool :=
  mergeDone cs == mergeWgAdd cs

/-- The sequences of values each forwarder copies into the shared
output channel (every value of its source, whether or not the source
ever closes). -/
def mergeSources (cs : List (Option Sig)) : List (List (Option Err)) :=
  (forwarders cs).map Sig.values

/-- `Interleave ls out` says that `out` is one possible order in which
the concurrent forwarders deliver the values of the source sequences
`ls` into the shared output channel: each step takes the next pending
value of some source, preserving per-source order. -/
inductive Interleave {α : Type} : List (List α) → List α → Prop where
  | nil (ls : List (List α)) (h : ∀ l ∈ ls, l = []) : Interleave ls []
  | cons (ls₁ : List (List α)) (x : α) (l : List α) (ls₂ : List (List α))
      (out : List α) (h : Interleave (ls₁ ++ l :: ls₂) out) :
      Interleave (ls₁ ++ (x :: l) :: ls₂) (x :: out)

/-- Outcome of the supervising receive loop in `daemonFunc`
(daemon.go lines 231-236). -/
inductive LoopOutcome where
  | errorExit (e : Err)
  | cleanExit
  | hang
deriving DecidableEq, Repr

/-- The supervising loop `for err := range merge(...)`: each received
non-nil error ends the loop (fatal); nil errors are skipped; when the
received values are exhausted the loop ends cleanly if the merged
channel closes but blocks forever if it never does. -/
def superviseLoop : List (Option Err) → Bool → LoopOutcome
  | [], true => .cleanExit
  | [], false => .hang
  | some e :: _, _ => .errorExit e
  | none :: rest, closes => superviseLoop rest closes

/-- Any delivery order of the sources is a permutation of their
concatenation. -/
theorem interleave_perm {α : Type} {ls : List (List α)} {out : List α}
    (h : Interleave ls out) : out.Perm ls.flatten := by
  induction h with
  | nil ls h0 =>
    have hj : ls.flatten = [] := by
      rw [List.flatten_eq_nil_iff]
      exact h0
    rw [hj]
  | cons ls₁ x l ls₂ out h ih =>
    have h1 : (ls₁ ++ (x :: l) :: ls₂).flatten
        = ls₁.flatten ++ (x :: (l ++ ls₂.flatten)) := by
      simp
    have h2 : (ls₁ ++ l :: ls₂).flatten = ls₁.flatten ++ (l ++ ls₂.flatten) := by
      simp
    rw [h1]
    refine List.Perm.trans (List.Perm.cons x (h2 ▸ ih)) ?_
    exact List.perm_middle.symm

/-- A peer record as used for `corerouting.SupernodeClient`: the
identity and the reachable addresses (daemon.go lines 165-171 build one
entry per configured server address). -/
structure PeerInfo where
  id : PeerID
  addrs : List Multiaddr
deriving DecidableEq, Repr

/-- A parsed supernode server address, exposing an identity and a
transport address (`addr.ID()` / `addr.Transport()`). -/
structure IPFSAddr where
  id : PeerID
  transport : Multiaddr
deriving DecidableEq, Repr

/-- The routing backend set on the node builder: the builder default
(nothing calls `SetRouting`) or `corerouting.SupernodeClient(infos...)`. -/
inductive RoutingBackend where
  | default
  | supernodeClient (infos : List PeerInfo)
deriving DecidableEq, Repr

/-- Modelled from the spec: `SupernodeRouting.ServerIPFSAddrs()` (the
config package is not in the source tree) parses the configured list of
peer addresses; each entry either parses to an identity plus transport
address (`some a`) or is malformed (`none`), and any malformed address
fails the whole operation with no partial peer set. -/
def serverIPFSAddrs : List (Option IPFSAddr) → Except Err (List IPFSAddr)
  | [] => .ok []
  | some a :: rest => (serverIPFSAddrs rest).map (fun as => a :: as)
  | none :: _ => .error "invalid ipfs address"

/-- The string the routing option is compared against (daemon.go
line 29). -/
def routingOptionSupernodeKwd : String := "supernode"

/-- Routing backend selection (daemon.go lines 158-173): the option
value `"supernode"` builds one `PeerInfo` per parsed server address,
with its identity and its transport address as the only address, and
selects the supernode client; any other value leaves the builder
default. -/
def selectRouting (routingOption : String) (servers : List (Option IPFSAddr)) :
    Except Err RoutingBackend :=
  if routingOption == routingOptionSupernodeKwd then
    (serverIPFSAddrs servers).map
      (fun addrs => .supernodeClient (addrs.map (fun a => ⟨a.id, [a.transport]⟩)))
  else
    .ok .default

/-- Persisted `Addresses` configuration (API and gateway listen
addresses; an empty gateway string disables the gateway). -/
structure Addresses where
  api : String
  gateway : String
deriving DecidableEq, Repr

/-- Persisted `Gateway` configuration. -/
structure GatewayCfg where
  writable : Bool
  rootRedirect : String
deriving DecidableEq, Repr

/-- Persisted `Mounts` configuration. -/
structure MountsCfg where
  ipfs : String
  ipns : String
deriving DecidableEq, Repr

/-- The persisted configuration read by `ctx.GetConfig()`. -/
structure Config where
  addresses : Addresses
  gateway : GatewayCfg
  mounts : MountsCfg
deriving DecidableEq, Repr

/-- The initialize-if-absent step (daemon.go lines 120-133): when the
flag is set and `util.FileExists(ConfigRoot)` is false, run
`initWithDefaults` (modelled from the spec as producing the contents of
a freshly created default repository, or failing); otherwise the
on-disk repository is left untouched. -/
def initIfAbsent (doInit : Bool) (disk : Option String)
    (defRepo : Except Err String) : Except Err (Option String) :=
  if doInit && disk.isNone then defRepo.map some else .ok disk

/-- Modelled from the spec: the fsrepo lock primitive enforces at most
one live repository handle per path, so an acquisition attempt succeeds
exactly when the lock is not currently held. -/
def acquireLock (held : Bool) : Except Err Unit :=
  if held then .error "lock is already held" else .ok ()

/-- The access-control block list wrapping the decision function
(`corehttp.BlockList`). -/
structure BlockList where
  decider : String → Bool

/-- The gateway configuration handed to `corehttp.NewGateway`
(daemon.go lines 264-280). -/
structure GatewayConfig where
  writable : Bool
  blockList : BlockList

/-- One entry of the composed serving pipeline (`corehttp.ServeOption`
values, as assembled in daemon.go lines 281-292 and 339-347). -/
inductive ServeOption where
  | commandsOption
  | webUIOption
  | gatewayServeOption (g : GatewayConfig)
  | versionOption
  | defaultMux (path : String)
  | ipnsHostnameOption
  | gatewayOption (writable : Bool)
  | redirectOption (path target : String)

/-- The API access-control decision function, translated from the
closure at daemon.go lines 267-278: allow everything when the
unrestricted flag is set; otherwise allow exactly the request paths
that have one of the `corehttp.WebUIPaths` entries as a prefix
(`strings.HasPrefix(s, webuipath)`). -/
def apiDecider (unrestricted : Bool) (webUIPaths : List String)
    (s : String) : Bool :=
  if unrestricted then true
  else webUIPaths.any (fun webuipath => s.startsWith webuipath)

/-- Environment for one `mountHTTPapi` invocation: the outcomes of its
external calls, in source order.  `webUIPaths` stands for the external
constant `corehttp.WebUIPaths`; `serveResult` is what `corehttp.Serve`
eventually returns on the spawned goroutine. -/
structure HTTPapiEnv where
  parseAPIAddr : Except Err Multiaddr
  listenOutcome : Except Err Multiaddr
  unrestrictedOpt : Except Err Bool
  webUIPaths : List String
  serveResult : Option Err
deriving Inhabited

/-- The data a successful `mountHTTPapi` produces: the gateway
configuration of the API surface, the composed pipeline, the concrete
bound address, and the returned error channel. -/
structure ApiOk where
  apiGw : GatewayConfig
  opts : List ServeOption
  boundAddr : Multiaddr
  sig : Sig

/-- `mountHTTPapi` (daemon.go lines 240-304): read the config, parse
the configured API multiaddress, bind the listener (reading back the
concrete bound address), read the unrestricted-access option, build the
API gateway handler with `Writable: true` and the block-list decider,
compose the pipeline (with a root redirect only when configured), and
return a channel that receives the single eventual result of
`corehttp.Serve` and is never closed. -/
def mountHTTPapi (cfgR : Except Err Config) (env : HTTPapiEnv) :
    Except Err ApiOk :=
  match cfgR with
  | .error e => .error ("mountHTTPapi: GetConfig() failed: " ++ e)
  | .ok cfg =>
    match env.parseAPIAddr with
    | .error e => .error ("mountHTTPapi: invalid API address: " ++ e)
    | .ok _apiMaddr =>
      match env.listenOutcome with
      | .error e => .error ("mountHTTPapi: manet.Listen failed: " ++ e)
      | .ok bound =>
        match env.unrestrictedOpt with
        | .error e => .error ("mountHTTPapi: Option failed: " ++ e)
        | .ok unrestricted =>
          let apiGw : GatewayConfig :=
            ⟨true, ⟨apiDecider unrestricted env.webUIPaths⟩⟩
          let opts : List ServeOption :=
            [.commandsOption, .webUIOption, .gatewayServeOption apiGw,
             .versionOption, .defaultMux "/debug/vars",
             .defaultMux "/debug/pprof/"]
            ++ (if cfg.gateway.rootRedirect.length > 0 then
                  [.redirectOption "" cfg.gateway.rootRedirect]
                else [])
          .ok ⟨apiGw, opts, bound, ⟨[env.serveResult], false⟩⟩

/-- Environment for one `mountHTTPgw` invocation, in source order.
`writableOpt` carries the `(value, found)` pair of
`req.Option(writableKwd).Bool()`. -/
structure HTTPgwEnv where
  parseGWAddr : Except Err Multiaddr
  writableOpt : Except Err (Bool × Bool)
  listenOutcome : Except Err Multiaddr
  serveResult : Option Err
deriving Inhabited

/-- The data a successful `mountHTTPgw` produces. -/
structure GwOk where
  writable : Bool
  opts : List ServeOption
  boundAddr : Multiaddr
  sig : Sig

/-- The gateway writability actually used (daemon.go lines 318-324):
the startup flag when the option was given, else the persisted
configuration default. -/
def effectiveGwWritable (found flagValue cfgValue : Bool) : Bool :=
  if found then flagValue else cfgValue

/-- `mountHTTPgw` (daemon.go lines 307-359): read the config, parse the
configured gateway multiaddress, resolve writability from the flag or
the config, bind the listener, compose the gateway pipeline (version,
hostname routing, gateway content with the resolved writability, and a
root redirect only when configured), and return a channel that receives
the single eventual result of `corehttp.Serve` and is never closed. -/
def mountHTTPgw (cfgR : Except Err Config) (env : HTTPgwEnv) :
    Except Err GwOk :=
  match cfgR with
  | .error e => .error ("mountHTTPgw: GetConfig() failed: " ++ e)
  | .ok cfg =>
    match env.parseGWAddr with
    | .error e => .error ("mountHTTPgw: invalid gateway address: " ++ e)
    | .ok _gwMaddr =>
      match env.writableOpt with
      | .error e => .error ("mountHTTPgw: Option failed: " ++ e)
      | .ok wopt =>
        let writable := effectiveGwWritable wopt.2 wopt.1 cfg.gateway.writable
        match env.listenOutcome with
        | .error e => .error ("mountHTTPgw: manet.Listen failed: " ++ e)
        | .ok bound =>
          let opts : List ServeOption :=
            [.versionOption, .ipnsHostnameOption, .gatewayOption writable]
            ++ (if cfg.gateway.rootRedirect.length > 0 then
                  [.redirectOption "" cfg.gateway.rootRedirect]
                else [])
          .ok ⟨writable, opts, bound, ⟨[env.serveResult], false⟩⟩

/-- Environment for one `daemonFunc` run: the outcomes of its external
calls, in source order.  `repoDisk` is the on-disk repository contents
(`none` when `util.FileExists(ConfigRoot)` is false); `defRepo` is the
outcome of `initWithDefaults`; `repoOpenOutcome` is the outcome of
`fsrepo.Open` (the exclusive lock acquisition); `repoServers` is the
configured supernode server list as seen by
`repo.Config().SupernodeRouting`; `buildOutcome` is the outcome of
`nb.Build`. -/
structure DaemonEnv where
  initFlag : Except Err Bool
  repoDisk : Option String
  defRepo : Except Err String
  repoOpenOutcome : Except Err Unit
  getConfigResult : Except Err Config
  routingOpt : Except Err String
  repoServers : List (Option IPFSAddr)
  buildOutcome : Except Err Unit
  apiEnv : HTTPapiEnv
  gwEnv : HTTPgwEnv
  mountFlag : Except Err Bool
  fuseOutcome : Except Err Unit
deriving Inhabited

/-- What one `daemonFunc` run did, as far as the bootstrap goes:
the error it reported (if any), whether the repository lock was
acquired, whether the bootstrap routine explicitly called
`repo.Close()`, whether the node was built (transferring handle
ownership to the node, whose deferred `Close` then releases it),
the routing backend set on the builder, which service launchers were
invoked (invoking one is what binds its listener), and the channel list
passed to `merge` when the supervising loop was reached. -/
structure DaemonResult where
  errorSet : Option Err
  repoLockAcquired : Bool
  repoClosedByBootstrap : Bool
  nodeBuilt : Bool
  routing : RoutingBackend
  apiInvoked : Bool
  gwInvoked : Bool
  mergeArgs : Option (List (Option Sig))
deriving DecidableEq, Repr

/-- A bootstrap failure before the repository lock was acquired. -/
def preLockFail (e : Err) : DaemonResult :=
  ⟨some e, false, false, false, .default, false, false, none⟩

/-- A bootstrap failure after lock acquisition but before the node was
built; `closedR` records whether the failing path called
`repo.Close()`. -/
def postLockFail (e : Err) (closedR : Bool) (r : RoutingBackend) :
    DaemonResult :=
  ⟨some e, true, closedR, false, r, false, false, none⟩

/-- A bootstrap failure after the node was built (handle ownership has
transferred; the deferred `node.Close` handles release). -/
def postBuildFail (e : Err) (r : RoutingBackend) (apiInv gwInv : Bool) :
    DaemonResult :=
  ⟨some e, true, false, true, r, apiInv, gwInv, none⟩

/-- `daemonFunc` (daemon.go lines 99-237), bootstrap portion: the
initialize-if-absent step, lock acquisition via `fsrepo.Open`, config
read, routing selection (closing the repo on a supernode config error,
but not on a build error), node build, API launch, conditional gateway
launch, conditional fuse mount, and finally the hand-off of
`[apiErrc, gwErrc]` to `merge`.  The supervising receive loop over the
merged channel is modelled separately by `superviseLoop` over an
`Interleave` of `mergeSources`. -/
def daemonFunc (env : DaemonEnv) : DaemonResult :=
  match env.initFlag with
  | .error e => preLockFail e
  | .ok doInit =>
    match initIfAbsent doInit env.repoDisk env.defRepo with
    | .error e => preLockFail e
    | .ok _disk =>
      match env.repoOpenOutcome with
      | .error e => preLockFail e
      | .ok () =>
        match env.getConfigResult with
        | .error e => postLockFail e false .default
        | .ok cfg =>
          match env.routingOpt with
          | .error e => postLockFail e false .default
          | .ok ropt =>
            match selectRouting ropt env.repoServers with
            | .error e => postLockFail e true .default
            | .ok routing =>
              match env.buildOutcome with
              | .error e => postLockFail e false routing
              | .ok () =>
                match mountHTTPapi env.getConfigResult env.apiEnv with
                | .error e => postBuildFail e routing true false
                | .ok api =>
                  match (if cfg.addresses.gateway.length > 0 then
                          (mountHTTPgw env.getConfigResult env.gwEnv).map some
                         else .ok none) with
                  | .error e => postBuildFail e routing true true
                  | .ok gwOpt =>
                    match env.mountFlag with
                    | .error e => postBuildFail e routing true gwOpt.isSome
                    | .ok doMount =>
                      match (if doMount then env.fuseOutcome else .ok ()) with
                      | .error e => postBuildFail e routing true gwOpt.isSome
                      | .ok () =>
                        ⟨none, true, false, true, routing, true, gwOpt.isSome,
                         some [some api.sig, gwOpt.map (fun g => g.sig)]⟩

/-- Whether the repository lock is still held when `daemonFunc`
returns, before any deferred node teardown: it was acquired, the
bootstrap never released it explicitly, and ownership never transferred
to a built node. -/
def lockHeldAfterRun (r : DaemonResult) : Bool :=
  r.repoLockAcquired && !r.repoClosedByBootstrap && !r.nodeBuilt

/-- A sample configuration with no gateway address configured and no
root redirect. -/
def cfg0 : Config :=
  ⟨⟨"/ip4/127.0.0.1/tcp/5001", ""⟩, ⟨false, ""⟩, ⟨"/ipfs", "/ipns"⟩⟩

/-- A sample configuration with a gateway address configured. -/
def cfgGw : Config :=
  ⟨⟨"/ip4/127.0.0.1/tcp/5001", "/ip4/127.0.0.1/tcp/8080"⟩, ⟨false, ""⟩,
   ⟨"/ipfs", "/ipns"⟩⟩

/-- A sample API launch environment: every external call succeeds and
`corehttp.Serve` eventually returns nil (clean termination). -/
def apiEnv0 : HTTPapiEnv :=
  ⟨.ok "/ip4/127.0.0.1/tcp/5001", .ok "/ip4/127.0.0.1/tcp/5001",
   .ok false, ["/webui"], none⟩

/-- A sample gateway launch environment: every external call succeeds,
the writable option was not given, and `corehttp.Serve` eventually
returns nil. -/
def gwEnv0 : HTTPgwEnv :=
  ⟨.ok "/ip4/127.0.0.1/tcp/8080", .ok (false, false),
   .ok "/ip4/127.0.0.1/tcp/8080", none⟩

/-- A daemon run in which everything up to node construction succeeds
(no initialize flag, repository present, lock acquired, default
routing) and `nb.Build` then fails. -/
def envBuildFail : DaemonEnv :=
  ⟨.ok false, some "repo", .ok "repo", .ok (), .ok cfg0, .ok "", [],
   .error "failed to build node", apiEnv0, gwEnv0, .ok false, .ok ()⟩

/-- Claim C1: the claim says a failed node construction releases the
repository lock so a subsequent acquisition succeeds.  Evaluating the
bootstrap at a run where `nb.Build` fails shows the opposite: the error
is reported, ownership never transferred to a node, yet the bootstrap
returns without calling `repo.Close` (daemon.go lines 175-180, in
contrast with the supernode error path at line 162), so the lock stays
held and a subsequent acquisition attempt on the same path fails. -/
theorem daemon_buildFail_lock_leak :
    (daemonFunc envBuildFail).errorSet = some "failed to build node"
  ∧ (daemonFunc envBuildFail).repoLockAcquired = true
  ∧ (daemonFunc envBuildFail).nodeBuilt = false
  ∧ (daemonFunc envBuildFail).repoClosedByBootstrap = false
  ∧ lockHeldAfterRun (daemonFunc envBuildFail) = true
  ∧ acquireLock true = .error "lock is already held" := by
  refine ⟨by decide, by decide, by decide, by decide, by decide, rfl⟩

/-- Claim C2: the claim says that with all-nil inputs the merged signal
closes immediately because nil inputs do not inflate the wait group.
In the code `wg.Add(len(cs))` counts nil inputs while no forwarder is
started for them (daemon.go lines 412-417), so no `wg.Done` ever
arrives for a nil input and the output channel of `merge` can never
close when any input is nil: with one or two all-nil inputs the wait
group holds 1 resp. 2 while zero forwarders run. -/
theorem merge_allNil_never_closes :
    mergeCloses [none] = false
  ∧ mergeCloses [none, none] = false
  ∧ (∀ s : Sig, mergeCloses [some s, none] = false)
  ∧ mergeWgAdd [none, none] = 2
  ∧ mergeDone [none, none] = 0
  ∧ forwarders [none, none] = [] := by
  refine ⟨by decide, by decide, ?_, by decide, by decide, by decide⟩
  intro s
  obtain ⟨v, c⟩ := s
  cases c <;> rfl

/-- Claim C3: the claim says every launcher-produced error signal emits
at most one value and then closes.  Each launcher sends exactly one
value (the eventual return of `corehttp.Serve`) on `errc` and never
closes it (daemon.go lines 299-303 and 354-358); evaluated at a clean
serve termination, both the API and the gateway signal hold the single
nil value with the channel still open, and the supervising loop over a
never-closing merged channel then blocks forever instead of exiting
cleanly. -/
theorem service_signal_never_closed :
    ((mountHTTPapi (.ok cfg0) apiEnv0).toOption.map
       (fun r => (r.sig.values, r.sig.closed))) = some ([none], false)
  ∧ ((mountHTTPgw (.ok cfgGw) gwEnv0).toOption.map
       (fun r => (r.sig.values, r.sig.closed))) = some ([none], false)
  ∧ superviseLoop [none] false = LoopOutcome.hang := by
  refine ⟨rfl, rfl, rfl⟩

/-- Wrapping every element in `some` and filtering the `some`s back out
is the identity. -/
theorem filterMap_id_map_some {α : Type} (l : List α) :
    (l.map some).filterMap id = l := by
  induction l with
  | nil => rfl
  | cons a t ih => simp [ih]

/-- Claim C4: when exactly one launched-service signal eventually
carries a non-nil error and every other signal closes without emitting,
the supervising loop observes exactly that error and exits with it, for
every position of the erroring signal in the launch order and every
delivery interleaving; and whenever the merged channel closes after
only nil values were received, the loop exits cleanly. -/
theorem supervise_first_error_fatal :
    (∀ (cs₁ cs₂ : List Sig) (e : Err),
      (∀ s ∈ cs₁ ++ cs₂, s = (⟨[], true⟩ : Sig)) →
      ∀ out,
        Interleave
          (mergeSources ((cs₁ ++ (⟨[some e], true⟩ : Sig) :: cs₂).map some))
          out →
        superviseLoop out
            (mergeCloses ((cs₁ ++ (⟨[some e], true⟩ : Sig) :: cs₂).map some))
          = .errorExit e)
  ∧ (∀ out : List (Option Err),
      (∀ x ∈ out, x = none) → superviseLoop out true = .cleanExit) := by
  constructor
  · intro cs₁ cs₂ e hall out hI
    have hms : mergeSources ((cs₁ ++ (⟨[some e], true⟩ : Sig) :: cs₂).map some)
        = (cs₁ ++ (⟨[some e], true⟩ : Sig) :: cs₂).map Sig.values := by
      simp [mergeSources, forwarders, filterMap_id_map_some]
    rw [hms] at hI
    have hperm := interleave_perm hI
    have hflat : ((cs₁ ++ (⟨[some e], true⟩ : Sig) :: cs₂).map Sig.values).flatten
        = [some e] := by
      have h1 : ∀ l ∈ cs₁.map Sig.values, l = ([] : List (Option Err)) := by
        intro l hl
        obtain ⟨s, hs, rfl⟩ := List.mem_map.mp hl
        rw [hall s (List.mem_append.mpr (Or.inl hs))]
      have h2 : ∀ l ∈ cs₂.map Sig.values, l = ([] : List (Option Err)) := by
        intro l hl
        obtain ⟨s, hs, rfl⟩ := List.mem_map.mp hl
        rw [hall s (List.mem_append.mpr (Or.inr hs))]
      have e1 : (cs₁.map Sig.values).flatten = [] :=
        List.flatten_eq_nil_iff.mpr h1
      have e2 : (cs₂.map Sig.values).flatten = [] :=
        List.flatten_eq_nil_iff.mpr h2
      simp [e1, e2]
    rw [hflat] at hperm
    have hout : out = [some e] := List.perm_singleton.mp hperm
    have hclose : mergeCloses ((cs₁ ++ (⟨[some e], true⟩ : Sig) :: cs₂).map some)
        = true := by
      have hfm : forwarders ((cs₁ ++ (⟨[some e], true⟩ : Sig) :: cs₂).map some)
          = cs₁ ++ (⟨[some e], true⟩ : Sig) :: cs₂ := by
        simp [forwarders, filterMap_id_map_some]
      have hfilter : (cs₁ ++ (⟨[some e], true⟩ : Sig) :: cs₂).filter
            (fun s => s.closed)
          = cs₁ ++ (⟨[some e], true⟩ : Sig) :: cs₂ := by
        rw [List.filter_eq_self]
        intro a ha
        rcases List.mem_append.mp ha with h | h
        · rw [hall a (List.mem_append.mpr (Or.inl h))]
        · rcases List.mem_cons.mp h with rfl | h
          · rfl
          · rw [hall a (List.mem_append.mpr (Or.inr h))]
      unfold mergeCloses mergeDone mergeWgAdd
      rw [hfm, hfilter]
      simp
    rw [hout, hclose]
    rfl
  · intro out h
    induction out with
    | nil => rfl
    | cons x t ih =>
      have hx : x = none := h x (List.mem_cons_self x t)
      rw [hx]
      exact ih (fun y hy => h y (List.mem_cons_of_mem x hy))

/-- Witness for `supervise_first_error_fatal`: two concrete launched
signals, the second carrying the only error, with the one possible
delivery order; and a merged channel that closes after one nil
value. -/
theorem supervise_first_error_fatal_witness :
    superviseLoop [some "boom"]
        (mergeCloses (([(⟨[], true⟩ : Sig)] ++ (⟨[some "boom"], true⟩ : Sig) :: []).map some))
      = .errorExit "boom"
  ∧ superviseLoop [none] true = .cleanExit := by
  constructor
  · exact supervise_first_error_fatal.1 [⟨[], true⟩] [] "boom" (by simp)
      [some "boom"]
      (Interleave.cons [[]] (some "boom") [] [] []
        (Interleave.nil [[], []] (by simp)))
  · exact supervise_first_error_fatal.2 [none] (by simp)

/-- Claim C5: the routing option value `"supernode"` selects the
supernode client built from the parsed server addresses, one `PeerInfo`
per configured peer carrying its identity and its transport address;
every other option value, the empty string included, selects the
builder default without failing. -/
theorem selectRouting_supernode_or_default :
    (∀ (ropt : String) (servers : List (Option IPFSAddr)),
      ropt ≠ "supernode" → selectRouting ropt servers = .ok .default)
  ∧ (∀ (servers : List (Option IPFSAddr)) (addrs : List IPFSAddr),
      serverIPFSAddrs servers = .ok addrs →
      selectRouting "supernode" servers
        = .ok (.supernodeClient
            (addrs.map (fun a => ⟨a.id, [a.transport]⟩)))) := by
  constructor
  · intro ropt servers h
    simp [selectRouting, routingOptionSupernodeKwd, h]
  · intro servers addrs h
    simp [selectRouting, routingOptionSupernodeKwd, h, Except.map]

/-- Witness for `selectRouting_supernode_or_default`: `"bogus"` and
`""` both yield the default backend; `"supernode"` with the single peer
`{id: P, addr: /ip4/127.0.0.1/tcp/4001}` yields the supernode client
with exactly that one entry. -/
theorem selectRouting_supernode_or_default_witness :
    selectRouting "bogus" [] = .ok .default
  ∧ selectRouting "" [] = .ok .default
  ∧ selectRouting "supernode" [some ⟨"P", "/ip4/127.0.0.1/tcp/4001"⟩]
      = .ok (.supernodeClient [⟨"P", ["/ip4/127.0.0.1/tcp/4001"]⟩]) := by
  refine ⟨?_, ?_, ?_⟩
  · exact selectRouting_supernode_or_default.1 "bogus" [] (by decide)
  · exact selectRouting_supernode_or_default.1 "" [] (by decide)
  · exact selectRouting_supernode_or_default.2
      [some ⟨"P", "/ip4/127.0.0.1/tcp/4001"⟩]
      [⟨"P", "/ip4/127.0.0.1/tcp/4001"⟩] rfl

/-- Claim C6: a malformed peer address anywhere in the supernode server
list fails address parsing as a whole (no partial peer set), and a
daemon run with routing option `"supernode"` over such a configuration
reports that error, explicitly closes the repository handle, builds no
node, invokes neither service launcher (so no listener is bound), and
never reaches the merge. -/
theorem supernode_badAddr_failfast :
    (∀ (pre : List IPFSAddr) (rest : List (Option IPFSAddr)),
      serverIPFSAddrs (pre.map some ++ none :: rest)
        = .error "invalid ipfs address")
  ∧ (∀ (disk : Option String) (dr : Except Err String) (cfg : Config)
       (servers : List (Option IPFSAddr)) (bo : Except Err Unit)
       (ae : HTTPapiEnv) (ge : HTTPgwEnv) (mf : Except Err Bool)
       (fo : Except Err Unit) (e : Err),
      serverIPFSAddrs servers = .error e →
      daemonFunc ⟨.ok false, disk, dr, .ok (), .ok cfg, .ok "supernode",
                  servers, bo, ae, ge, mf, fo⟩
        = postLockFail e true .default) := by
  constructor
  · intro pre rest
    induction pre with
    | nil => rfl
    | cons a t ih => simp [serverIPFSAddrs, ih, Except.map]
  · intro disk dr cfg servers bo ae ge mf fo e h
    simp [daemonFunc, initIfAbsent, selectRouting, routingOptionSupernodeKwd, h,
      Except.map]

/-- Witness for `supernode_badAddr_failfast`: one well-formed address
followed by one malformed entry. -/
theorem supernode_badAddr_failfast_witness :
    serverIPFSAddrs ([(⟨"P", "/a"⟩ : IPFSAddr)].map some ++ none :: [])
      = .error "invalid ipfs address"
  ∧ daemonFunc ⟨.ok false, some "repo", .ok "repo", .ok (), .ok cfg0,
      .ok "supernode", [some ⟨"P", "/a"⟩, none], .ok (), apiEnv0, gwEnv0,
      .ok false, .ok ()⟩ = postLockFail "invalid ipfs address" true .default := by
  constructor
  · exact supernode_badAddr_failfast.1 [⟨"P", "/a"⟩] []
  · exact supernode_badAddr_failfast.2 (some "repo") (.ok "repo") cfg0
      [some ⟨"P", "/a"⟩, none] (.ok ()) apiEnv0 gwEnv0 (.ok false) (.ok ())
      "invalid ipfs address" rfl

/-- Claim C7: the API access-control decider allows every path when the
unrestricted flag is set; with the flag unset it allows a path exactly
when one of the trusted UI paths is a prefix of it, and denies
everything else. -/
theorem apiDecider_allowlist :
    ∀ (paths : List String) (s : String),
      apiDecider true paths s = true
    ∧ (apiDecider false paths s = true ↔ ∃ p ∈ paths, s.startsWith p) := by
  intro paths s
  constructor
  · rfl
  · simp [apiDecider, List.any_eq_true]

/-- Claim C8: when the configured gateway listen address is empty, a
daemon run never invokes `mountHTTPgw` (so no gateway listener is
bound), passes a nil gateway slot to `merge`, and that nil slot
contributes no entry to the forwarder set of the merge. -/
theorem gateway_absent_no_launch :
    ∀ (disk : Option String) (dr : Except Err String) (cfg : Config)
      (servers : List (Option IPFSAddr)) (ae : HTTPapiEnv)
      (ge : HTTPgwEnv) (api : ApiOk),
      cfg.addresses.gateway = "" →
      mountHTTPapi (.ok cfg) ae = .ok api →
      daemonFunc ⟨.ok false, disk, dr, .ok (), .ok cfg, .ok "", servers,
                  .ok (), ae, ge, .ok false, .ok ()⟩
        = ⟨none, true, false, true, .default, true, false,
           some [some api.sig, none]⟩
      ∧ forwarders [some api.sig, none] = [api.sig] := by
  intro disk dr cfg servers ae ge api hgw hapi
  constructor
  · simp [daemonFunc, initIfAbsent, selectRouting, routingOptionSupernodeKwd,
      hapi, hgw]
  · rfl

/-- The value a successful `mountHTTPapi` run over `cfg0` and `apiEnv0`
produces. -/
def api0 : ApiOk :=
  ⟨⟨true, ⟨apiDecider false ["/webui"]⟩⟩,
   [.commandsOption, .webUIOption,
    .gatewayServeOption ⟨true, ⟨apiDecider false ["/webui"]⟩⟩,
    .versionOption, .defaultMux "/debug/vars", .defaultMux "/debug/pprof/"],
   "/ip4/127.0.0.1/tcp/5001", ⟨[none], false⟩⟩

/-- Witness for `gateway_absent_no_launch` at the sample configuration
without a gateway address. -/
theorem gateway_absent_no_launch_witness :
    daemonFunc ⟨.ok false, some "repo", .ok "repo", .ok (), .ok cfg0, .ok "",
                [], .ok (), apiEnv0, gwEnv0, .ok false, .ok ()⟩
      = ⟨none, true, false, true, .default, true, false,
         some [some api0.sig, none]⟩
    ∧ forwarders [some api0.sig, none] = [api0.sig] := by
  exact gateway_absent_no_launch (some "repo") (.ok "repo") cfg0 []
    apiEnv0 gwEnv0 api0 rfl rfl

/-- Claim C9: the initialize-if-absent step over an already-existing
repository is skipped silently: it returns the unchanged on-disk state
with no error, whatever the flag and whatever `initWithDefaults` would
have produced, and running the step a second time on the outcome
changes nothing either. -/
theorem initIfAbsent_idem :
    ∀ (doInit : Bool) (dr : Except Err String) (r : String),
      initIfAbsent doInit (some r) dr = .ok (some r)
    ∧ (initIfAbsent doInit (some r) dr).bind
        (fun d => initIfAbsent doInit d dr) = .ok (some r) := by
  intro doInit dr r
  constructor
  · simp [initIfAbsent]
  · simp [initIfAbsent, Except.bind]

/-- Claim C10: the HTTP handler composed for the control/API surface is
always built with `Writable: true`, for every environment (in
particular the API launcher never reads the writable startup flag);
the gateway launcher is the one that resolves writability from the
startup flag when given and from the persisted configuration
otherwise. -/
theorem api_always_writable :
    (∀ (cfgR : Except Err Config) (env : HTTPapiEnv),
      ((mountHTTPapi cfgR env).toOption.all
        (fun r => r.apiGw.writable)) = true)
  ∧ (∀ (cfg : Config) (pa : Except Err Multiaddr) (wv found : Bool)
       (lo : Except Err Multiaddr) (sr : Option Err),
      ((mountHTTPgw (.ok cfg) ⟨pa, .ok (wv, found), lo, sr⟩).toOption.all
        (fun r => r.writable == effectiveGwWritable found wv
            cfg.gateway.writable)) = true) := by
  constructor
  · intro cfgR env
    obtain ⟨pa, lo, uo, wp, sr⟩ := env
    cases cfgR <;> cases pa <;> cases lo <;> cases uo <;>
      simp [mountHTTPapi, Except.toOption, Option.all]
  · intro cfg pa wv found lo sr
    cases pa <;> cases lo <;> simp [mountHTTPgw, Except.toOption, Option.all]
